import Mathlib

/-!
Shallow embedding of the to-do list client in
`src/src/js/components/Home.jsx`.

React `useState` setters become functional record updates on `AppState`.
Each async handler becomes a function from the current component state and
an oracle describing the network's behaviour to the next state together
with the list of observable events: the network requests it issued and its
internal calls to `loadTasks`.

A `fetch` outcome is modelled as `Option Response`: `none` is a rejected
promise (the request failed at the network level), `some r` a response
that arrived carrying status `r.status`.  As in the browser, `fetch`
itself does not reject on a non-2xx status; handlers that want that check
`response.ok` explicitly, and the embedding mirrors exactly which handlers
do.  The parsed JSON body of `GET /users/{username}` is a `UserData`
whose `todos` field may be absent (`none`), matching `userData.todos`
being `undefined`.
-/

namespace TodoClient

/-- JavaScript `String.prototype.trim()`: removes leading and trailing
whitespace, modelled on the string's character list so that it evaluates
by kernel reduction. -/
def jsTrim (s : String) : String :=
  String.mk ((s.data.dropWhile Char.isWhitespace).reverse.dropWhile
    Char.isWhitespace).reverse

/-- A to-do item as returned by the server: `{id, label, is_done}`. -/
structure Task where
  id : Nat
  label : String
  is_done : Bool
deriving DecidableEq, Repr

/-- An HTTP response, reduced to the status code the client inspects. -/
structure Response where
  status : Nat
deriving DecidableEq, Repr

/-- `response.ok`: the status is in the 2xx range. -/
def Response.ok (r : Response) : Bool :=
  decide (200 ≤ r.status) && decide (r.status < 300)

/-- Parsed body of `GET /users/{username}`; `todos` may be absent. -/
structure UserData where
  todos : Option (List Task)
deriving DecidableEq, Repr

/-- Component state of the `Home` / `TodoApp` components, together with the
browser session storage entry under the key `todoUsername`. -/
structure AppState where
  tasks : List Task
  inputTaskValue : String
  totalTasksCreated : Nat
  loading : Bool
  error : String
  username : String
  isUserSet : Bool
  sessionStorage : Option String
deriving DecidableEq, Repr

/-- The "Current Tasks" counter rendered by `TaskCounter`. -/
def currentTasksCounter (st : AppState) : Nat :=
  st.tasks.length

/-- Observable events: network requests issued, and calls of `loadTasks`. -/
inductive Event where
  | reqGetUser (u : String)
  | reqPostUser (u : String)
  | reqPostTodo (u : String) (label : String)
  | reqDeleteTodo (id : Nat)
  | callLoadTasks
deriving DecidableEq, Repr

def loadErrorMsg : String := "Failed to load tasks. Please try again."

def initErrorMsg : String := "Failed to initialize user. Please try again."

def addErrorMsg : String := "Failed to add task. Please try again."

def deleteErrorMsg : String := "Failed to delete task. Please try again."

def clearErrorMsg : String := "Failed to clear all tasks. Please try again."

/-- `loadTasks`: clears the error, `GET /users/{username}`, throws on a
non-ok response, on success stores `userData.todos || []` and sets
`totalTasksCreated` to `userData.todos?.length || 0`; its own `catch`
sets the load error message, so `loadTasks` never propagates a failure. -/
def loadTasks (st : AppState) (resp : Option (Response × UserData)) :
    AppState × List Event :=
  let ev : List Event := [Event.reqGetUser st.username]
  match resp with
  | none => ({ st with error := loadErrorMsg }, ev)
  | some (r, userData) =>
      if r.ok then
        ({ st with error := "",
                   tasks := userData.todos.getD [],
                   totalTasksCreated := (userData.todos.getD []).length }, ev)
      else
        ({ st with error := loadErrorMsg }, ev)

/-- `initializeUser`: `GET /users/{username}`; if the status is 404,
`POST /users/{username}` (whose response status is not checked); then
`loadTasks`.  A rejected GET or POST is caught and sets the init error
message; `loading` is toggled around the whole operation. -/
def initializeUser (st : AppState) (getResp : Option Response)
    (postResp : Option Response) (loadResp : Option (Response × UserData)) :
    AppState × List Event :=
  let st1 := { st with loading := true, error := "" }
  match getResp with
  | none =>
      ({ st1 with error := initErrorMsg, loading := false },
       [Event.reqGetUser st.username])
  | some r =>
      if r.status = 404 then
        match postResp with
        | none =>
            ({ st1 with error := initErrorMsg, loading := false },
             [Event.reqGetUser st.username, Event.reqPostUser st.username])
        | some _ =>
            let res := loadTasks st1 loadResp
            ({ res.1 with loading := false },
             Event.reqGetUser st.username :: Event.reqPostUser st.username ::
               Event.callLoadTasks :: res.2)
      else
        let res := loadTasks st1 loadResp
        ({ res.1 with loading := false },
         Event.reqGetUser st.username :: Event.callLoadTasks :: res.2)

/-- `addTask`: returns immediately when the trimmed input is empty;
otherwise `POST /todos/{username}` with the trimmed label, throws on a
non-ok response, and on success clears the input and runs `loadTasks`. -/
def addTask (st : AppState) (postResp : Option Response)
    (loadResp : Option (Response × UserData)) : AppState × List Event :=
  if jsTrim st.inputTaskValue = "" then (st, [])
  else
    let st1 := { st with loading := true, error := "" }
    let ev := Event.reqPostTodo st.username (jsTrim st.inputTaskValue)
    match postResp with
    | none => ({ st1 with error := addErrorMsg, loading := false }, [ev])
    | some r =>
        if r.ok then
          let res := loadTasks { st1 with inputTaskValue := "" } loadResp
          ({ res.1 with loading := false },
           ev :: Event.callLoadTasks :: res.2)
        else
          ({ st1 with error := addErrorMsg, loading := false }, [ev])

/-- `deleteTask` / `handleDeleteTask`: `DELETE /todos/{taskId}`, throws on
a rejected fetch or a non-ok response, and on success runs `loadTasks`. -/
def handleDeleteTask (st : AppState) (taskId : Nat)
    (delResp : Option Response) (loadResp : Option (Response × UserData)) :
    AppState × List Event :=
  let st1 := { st with loading := true, error := "" }
  let ev := Event.reqDeleteTodo taskId
  match delResp with
  | none => ({ st1 with error := deleteErrorMsg, loading := false }, [ev])
  | some r =>
      if r.ok then
        let res := loadTasks st1 loadResp
        ({ res.1 with loading := false }, ev :: Event.callLoadTasks :: res.2)
      else
        ({ st1 with error := deleteErrorMsg, loading := false }, [ev])

/-- `clearAllTasks`: issues one `DELETE /todos/{task.id}` per task via
`tasks.map(fetch)` and `Promise.all`.  `Promise.all` rejects exactly when
some fetch rejects (`delOutcome task.id = none`); no `response.ok` check
is made on the individual responses.  On rejection the `catch` sets the
clear error message and `loadTasks` is not reached; otherwise `loadTasks`
runs. -/
def clearAllTasks (st : AppState) (delOutcome : Nat → Option Response)
    (loadResp : Option (Response × UserData)) : AppState × List Event :=
  let st1 := { st with loading := true, error := "" }
  let evs := st.tasks.map (fun t => Event.reqDeleteTodo t.id)
  if st.tasks.all (fun t => (delOutcome t.id).isSome) then
    let res := loadTasks st1 loadResp
    ({ res.1 with loading := false }, evs ++ Event.callLoadTasks :: res.2)
  else
    ({ st1 with error := clearErrorMsg, loading := false }, evs)

/-- `ClearAllButton` composed with `handleClearAll`: the button is not
rendered when there are no tasks, is disabled while loading, and asks
`window.confirm` (the oracle `confirmAns`) before invoking
`clearAllTasks`. -/
def clearAllButtonClick (st : AppState) (confirmAns : Bool)
    (delOutcome : Nat → Option Response)
    (loadResp : Option (Response × UserData)) : AppState × List Event :=
  if st.tasks.length > 0 then
    if st.loading then (st, [])
    else if confirmAns then clearAllTasks st delOutcome loadResp
    else (st, [])
  else (st, [])

/-- `handleUsernameSubmit` in the `Home` component: persists the username
in session storage under `todoUsername`, stores it in state and leaves
the gate. -/
def handleUsernameSubmit (st : AppState) (newUsername : String) : AppState :=
  { st with sessionStorage := some newUsername,
            username := newUsername,
            isUserSet := true }

/-- `UsernameForm.handleSubmit`: submits the trimmed input when it is
non-empty, otherwise does nothing. -/
def usernameFormSubmit (st : AppState) (inputUsername : String) : AppState :=
  if jsTrim inputUsername = "" then st
  else handleUsernameSubmit st (jsTrim inputUsername)

/-- `handleLogout`: removes the stored username from session storage,
resets the in-memory username and returns to the gate. -/
def handleLogout (st : AppState) : AppState :=
  { st with sessionStorage := none, username := "", isUserSet := false }

/-- A sample task used to instantiate witnesses. -/
def sampleTask : Task := { id := 1, label := "buy milk", is_done := false }

/-- A sample component state holding one task. -/
def sampleState : AppState :=
  { tasks := [sampleTask], inputTaskValue := "", totalTasksCreated := 1,
    loading := false, error := "", username := "alice", isUserSet := true,
    sessionStorage := some "alice" }

/-- A sample state with no tasks. -/
def emptyState : AppState :=
  { tasks := [], inputTaskValue := "", totalTasksCreated := 0,
    loading := false, error := "", username := "alice", isUserSet := true,
    sessionStorage := some "alice" }

/-- A sample state still at the username gate. -/
def gateState : AppState :=
  { tasks := [], inputTaskValue := "", totalTasksCreated := 0,
    loading := false, error := "", username := "", isUserSet := false,
    sessionStorage := none }

/-- The event list of `loadTasks` is always exactly the single GET for the
user, whatever the network does. -/
theorem loadTasks_events (st : AppState) (resp : Option (Response × UserData)) :
    (loadTasks st resp).2 = [Event.reqGetUser st.username] := by
  rcases resp with _ | ⟨r, u⟩
  · simp [loadTasks]
  · cases hr : r.ok <;> simp [loadTasks, hr]

/-- Claim C1: for every non-empty task list, if any single one of the
parallel DELETE requests issued by `clearAllTasks` fails (its fetch
promise rejects), the operation throws — surfacing as the clear-all error
message — and the subsequent reload is aborted: `loadTasks` is not
called. -/
theorem clearAll_failure_aborts_reload (st : AppState)
    (delOutcome : Nat → Option Response)
    (loadResp : Option (Response × UserData))
    (hne : st.tasks ≠ []) (t : Task) (ht : t ∈ st.tasks)
    (hfail : delOutcome t.id = none) :
    (clearAllTasks st delOutcome loadResp).1.error = clearErrorMsg ∧
      Event.callLoadTasks ∉ (clearAllTasks st delOutcome loadResp).2 := by
  have hall : (st.tasks.all fun u => (delOutcome u.id).isSome) = false := by
    cases hb : st.tasks.all fun u => (delOutcome u.id).isSome
    · rfl
    · have := List.all_eq_true.mp hb t ht
      simp [hfail] at this
  constructor
  · simp [clearAllTasks, hall]
  · simp [clearAllTasks, hall]

/-- Witness for C1: a one-task state whose single DELETE rejects. -/
theorem clearAll_failure_aborts_reload_witness :
    (clearAllTasks sampleState (fun _ => none) none).1.error = clearErrorMsg ∧
      Event.callLoadTasks ∉ (clearAllTasks sampleState (fun _ => none) none).2 :=
  clearAll_failure_aborts_reload sampleState (fun _ => none) none
    (by decide) sampleTask (by decide) rfl

/-- Claim C2: submitting a username whose trimmed form is non-empty leaves
the gate (`isUserSet` becomes true, so the task view renders) and persists
the trimmed username in browser session storage. -/
theorem usernameSubmit_transitions_and_persists (st : AppState)
    (input : String) (h : jsTrim input ≠ "") :
    (usernameFormSubmit st input).isUserSet = true ∧
      (usernameFormSubmit st input).sessionStorage = some (jsTrim input) ∧
      (usernameFormSubmit st input).username = jsTrim input := by
  simp [usernameFormSubmit, handleUsernameSubmit, h]

/-- Witness for C2 at the gate with the input `"  alice "`. -/
theorem usernameSubmit_transitions_and_persists_witness :
    (usernameFormSubmit gateState "  alice ").isUserSet = true ∧
      (usernameFormSubmit gateState "  alice ").sessionStorage =
        some (jsTrim "  alice ") ∧
      (usernameFormSubmit gateState "  alice ").username = jsTrim "  alice " :=
  usernameSubmit_transitions_and_persists gateState "  alice " (by decide)

/-- Claim C3: after a successful `addTask`, `deleteTask` or
`clearAllTasks`, the list is re-fetched (`loadTasks` is called) and the
displayed list is set to exactly the `todos` the server returned. -/
theorem mutation_refetches_and_matches_server
    (sa sd sc : AppState) (taskId : Nat) (pr dr r : Response) (u : UserData)
    (delOutcome : Nat → Option Response)
    (hin : jsTrim sa.inputTaskValue ≠ "") (hpr : pr.ok = true)
    (hdr : dr.ok = true)
    (hclr : ∀ t ∈ sc.tasks, (delOutcome t.id).isSome = true)
    (hr : r.ok = true) :
    ((addTask sa (some pr) (some (r, u))).1.tasks = u.todos.getD [] ∧
        Event.callLoadTasks ∈ (addTask sa (some pr) (some (r, u))).2) ∧
      ((handleDeleteTask sd taskId (some dr) (some (r, u))).1.tasks =
          u.todos.getD [] ∧
        Event.callLoadTasks ∈
          (handleDeleteTask sd taskId (some dr) (some (r, u))).2) ∧
      ((clearAllTasks sc delOutcome (some (r, u))).1.tasks = u.todos.getD [] ∧
        Event.callLoadTasks ∈ (clearAllTasks sc delOutcome (some (r, u))).2) := by
  have hall : (sc.tasks.all fun t => (delOutcome t.id).isSome) = true := by
    rw [List.all_eq_true]
    intro t ht
    simpa using hclr t ht
  refine ⟨⟨?_, ?_⟩, ⟨?_, ?_⟩, ⟨?_, ?_⟩⟩ <;>
    simp [addTask, handleDeleteTask, clearAllTasks, loadTasks, hin, hpr,
      hdr, hr, hall]

/-- Witness for C3: concrete successful add, delete and clear-all runs. -/
theorem mutation_refetches_and_matches_server_witness :
    ((addTask { sampleState with inputTaskValue := " walk dog " }
          (some ⟨201⟩) (some (⟨200⟩, ⟨some []⟩))).1.tasks =
        (⟨some []⟩ : UserData).todos.getD [] ∧
      Event.callLoadTasks ∈
        (addTask { sampleState with inputTaskValue := " walk dog " }
          (some ⟨201⟩) (some (⟨200⟩, ⟨some []⟩))).2) ∧
      ((handleDeleteTask sampleState 1 (some ⟨200⟩)
            (some (⟨200⟩, ⟨some []⟩))).1.tasks =
          (⟨some []⟩ : UserData).todos.getD [] ∧
        Event.callLoadTasks ∈
          (handleDeleteTask sampleState 1 (some ⟨200⟩)
            (some (⟨200⟩, ⟨some []⟩))).2) ∧
      ((clearAllTasks sampleState (fun _ => some ⟨200⟩)
            (some (⟨200⟩, ⟨some []⟩))).1.tasks =
          (⟨some []⟩ : UserData).todos.getD [] ∧
        Event.callLoadTasks ∈
          (clearAllTasks sampleState (fun _ => some ⟨200⟩)
            (some (⟨200⟩, ⟨some []⟩))).2) :=
  mutation_refetches_and_matches_server
    { sampleState with inputTaskValue := " walk dog " } sampleState
    sampleState 1 ⟨201⟩ ⟨200⟩ ⟨200⟩ ⟨some []⟩ (fun _ => some ⟨200⟩)
    (by decide) (by decide) (by decide) (by decide) (by decide)

/-- Claim C4: `initializeUser` first issues the GET for the user, issues
the user-creating POST exactly when that GET returned status 404, and —
provided the GET completed and, in the 404 case, the POST did not reject —
then calls `loadTasks`. -/
theorem initializeUser_posts_iff_404_then_loads (st : AppState)
    (r : Response) (postResp : Option Response)
    (loadResp : Option (Response × UserData))
    (hpost : r.status = 404 → postResp.isSome = true) :
    (initializeUser st (some r) postResp loadResp).2.head? =
        some (Event.reqGetUser st.username) ∧
      ((Event.reqPostUser st.username ∈
          (initializeUser st (some r) postResp loadResp).2) ↔
        r.status = 404) ∧
      Event.callLoadTasks ∈ (initializeUser st (some r) postResp loadResp).2 := by
  by_cases h404 : r.status = 404
  · rcases hp : postResp with _ | p
    · rw [hp] at hpost
      simp [h404] at hpost
    · simp [initializeUser, h404, loadTasks_events]
  · simp [initializeUser, h404, loadTasks_events]

/-- Witness for C4: the GET returns 404 and the POST completes. -/
theorem initializeUser_posts_iff_404_then_loads_witness :
    (initializeUser gateState (some ⟨404⟩) (some ⟨201⟩)
          (some (⟨200⟩, ⟨some []⟩))).2.head? =
        some (Event.reqGetUser gateState.username) ∧
      ((Event.reqPostUser gateState.username ∈
          (initializeUser gateState (some ⟨404⟩) (some ⟨201⟩)
            (some (⟨200⟩, ⟨some []⟩))).2) ↔
        (⟨404⟩ : Response).status = 404) ∧
      Event.callLoadTasks ∈
        (initializeUser gateState (some ⟨404⟩) (some ⟨201⟩)
          (some (⟨200⟩, ⟨some []⟩))).2 :=
  initializeUser_posts_iff_404_then_loads gateState ⟨404⟩ (some ⟨201⟩)
    (some (⟨200⟩, ⟨some []⟩)) (fun _ => rfl)

/-- Claim C5: on a successful response, `loadTasks` sets the displayed
list to the response's `todos` array (empty when absent) and the
`totalTasksCreated` counter to that array's length. -/
theorem loadTasks_success_sets_list_and_counter (st : AppState)
    (r : Response) (u : UserData) (hr : r.ok = true) :
    (loadTasks st (some (r, u))).1.tasks = u.todos.getD [] ∧
      (loadTasks st (some (r, u))).1.totalTasksCreated =
        (u.todos.getD []).length := by
  simp [loadTasks, hr]

/-- Witness for C5: a 200 response whose body has no `todos` field. -/
theorem loadTasks_success_sets_list_and_counter_witness :
    (loadTasks sampleState (some (⟨200⟩, ⟨none⟩))).1.tasks =
        (⟨none⟩ : UserData).todos.getD [] ∧
      (loadTasks sampleState (some (⟨200⟩, ⟨none⟩))).1.totalTasksCreated =
        ((⟨none⟩ : UserData).todos.getD []).length :=
  loadTasks_success_sets_list_and_counter sampleState ⟨200⟩ ⟨none⟩ (by decide)

/-- Claim C6: when the trimmed input is empty, `addTask` is a no-op: the
state is returned unchanged and no event — in particular no network
request — is emitted. -/
theorem addTask_blank_input_is_noop (st : AppState)
    (postResp : Option Response) (loadResp : Option (Response × UserData))
    (h : jsTrim st.inputTaskValue = "") :
    addTask st postResp loadResp = (st, []) := by
  simp [addTask, h]

/-- Witness for C6: a whitespace-only input value. -/
theorem addTask_blank_input_is_noop_witness :
    addTask { sampleState with inputTaskValue := "   " } (some ⟨201⟩) none =
      ({ sampleState with inputTaskValue := "   " }, []) :=
  addTask_blank_input_is_noop { sampleState with inputTaskValue := "   " }
    (some ⟨201⟩) none (by decide)

/-- Claim C7: with an empty task list the clear-all button is not rendered
(`ClearAllButton` returns null), so clearing all tasks is a no-op: the
state is unchanged and no DELETE request is issued. -/
theorem clearAll_empty_list_is_noop (st : AppState) (confirmAns : Bool)
    (delOutcome : Nat → Option Response)
    (loadResp : Option (Response × UserData)) (h : st.tasks = []) :
    clearAllButtonClick st confirmAns delOutcome loadResp = (st, []) := by
  simp [clearAllButtonClick, h]

/-- Witness for C7: a state with no tasks. -/
theorem clearAll_empty_list_is_noop_witness :
    clearAllButtonClick emptyState true (fun _ => some ⟨200⟩) none =
      (emptyState, []) :=
  clearAll_empty_list_is_noop emptyState true (fun _ => some ⟨200⟩) none rfl

/-- Claim C8: logout removes the persisted username from session storage,
resets the in-memory username to empty and returns the app to the
username gate. -/
theorem logout_clears_session_and_returns_to_gate (st : AppState) :
    (handleLogout st).sessionStorage = none ∧
      (handleLogout st).username = "" ∧
      (handleLogout st).isUserSet = false := by
  simp [handleLogout]

/-- Claim C9: after a successful `loadTasks` the `totalTasksCreated`
counter equals the current length of the fetched list (the "Current
Tasks" counter), so it is not cumulative; and a successful delete whose
reload returns fewer todos strictly decreases it. -/
theorem totalCreated_equals_current_length (st : AppState) (r : Response)
    (u : UserData) (sd : AppState) (taskId : Nat) (dr rr : Response)
    (uu : UserData) (hr : r.ok = true) (hdr : dr.ok = true)
    (hrr : rr.ok = true)
    (hfewer : (uu.todos.getD []).length < sd.totalTasksCreated) :
    (loadTasks st (some (r, u))).1.totalTasksCreated =
        currentTasksCounter (loadTasks st (some (r, u))).1 ∧
      (handleDeleteTask sd taskId (some dr) (some (rr, uu))).1.totalTasksCreated <
        sd.totalTasksCreated := by
  constructor
  · simp [loadTasks, hr, currentTasksCounter]
  · simpa [handleDeleteTask, loadTasks, hdr, hrr] using hfewer

/-- Witness for C9: deleting the only task and reloading an empty list
drops the counter from 1 to 0. -/
theorem totalCreated_equals_current_length_witness :
    (loadTasks sampleState (some (⟨200⟩, ⟨some []⟩))).1.totalTasksCreated =
        currentTasksCounter (loadTasks sampleState
          (some (⟨200⟩, ⟨some []⟩))).1 ∧
      (handleDeleteTask sampleState 1 (some ⟨200⟩)
          (some (⟨200⟩, ⟨some []⟩))).1.totalTasksCreated <
        sampleState.totalTasksCreated :=
  totalCreated_equals_current_length sampleState ⟨200⟩ ⟨some []⟩ sampleState
    1 ⟨200⟩ ⟨200⟩ ⟨some []⟩ (by decide) (by decide) (by decide) (by decide)

/-- Claim C10: when `loadTasks` fails — the fetch rejects or the response
is non-ok — the displayed list and both counters are unchanged and only
the error message is set. -/
theorem loadTasks_failure_preserves_list_and_counters (st : AppState)
    (resp : Option (Response × UserData))
    (h : ∀ r u, resp = some (r, u) → r.ok = false) :
    (loadTasks st resp).1.tasks = st.tasks ∧
      (loadTasks st resp).1.totalTasksCreated = st.totalTasksCreated ∧
      currentTasksCounter (loadTasks st resp).1 = currentTasksCounter st ∧
      (loadTasks st resp).1.error = loadErrorMsg := by
  rcases resp with _ | ⟨r, u⟩
  · simp [loadTasks, currentTasksCounter]
  · have hr := h r u rfl
    simp [loadTasks, hr, currentTasksCounter]

/-- Witness for C10: a 500 response leaves the one-task state's list and
counters intact. -/
theorem loadTasks_failure_preserves_list_and_counters_witness :
    (loadTasks sampleState (some (⟨500⟩, ⟨some []⟩))).1.tasks =
        sampleState.tasks ∧
      (loadTasks sampleState (some (⟨500⟩, ⟨some []⟩))).1.totalTasksCreated =
        sampleState.totalTasksCreated ∧
      currentTasksCounter (loadTasks sampleState
          (some (⟨500⟩, ⟨some []⟩))).1 = currentTasksCounter sampleState ∧
      (loadTasks sampleState (some (⟨500⟩, ⟨some []⟩))).1.error =
        loadErrorMsg :=
  loadTasks_failure_preserves_list_and_counters sampleState
    (some (⟨500⟩, ⟨some []⟩)) (fun r u hh => by cases hh; decide)

end TodoClient
